import Mathlib

/-!
Verification development for the `websockets-scaling` repository.

The repository contains two socket.io servers (the minimal end-to-end
example `e2esimple/server.js` with its client `e2esimple/client.js`, and
the tutorial server of the README, which adds a Redis adapter and a
periodic liveness broadcast), plus a docker-compose stack configuring a
Traefik reverse proxy with a sticky cookie.

The servers are event-driven: each incoming event (a new connection, a
client message, a timer tick) runs a handler that may append connections,
emit socket events, and write log lines.  We embed each handler as a pure
function from the server state and the event data to the successor state,
the list of per-connection deliveries produced by `io.emit`, and the log
lines written by `console.log`.
-/

namespace WebsocketsScaling

/-- Health states of a node as named by the specification
(`starting`, `healthy`, `draining`, `unreachable`). -/
inductive Health where
  | starting
  | healthy
  | draining
  | unreachable
deriving DecidableEq, Repr

/-- The presence-record shape stated by the specification:
`{ nodeId, health, connectionCount, timestamp }`.  This is a spec-side
type used to compare the spec against what the code actually emits. -/
structure PresenceRecord where
  nodeId : String
  health : Health
  connectionCount : Nat
  timestamp : Nat
deriving DecidableEq, Repr

/-- Payload of a socket event.  The sources only ever emit plain strings
(`io.emit("broadcast", 'A broadcast message')`, `io.emit("okok", log0)`);
the `record` alternative exists so the spec claim that a structured
presence record is emitted can be stated and compared. -/
inductive Payload where
  | str (s : String)
  | record (r : PresenceRecord)
deriving DecidableEq, Repr

/-- One delivery of an event to one connected client. -/
structure Delivery where
  target : String
  event : String
  payload : Payload
deriving DecidableEq, Repr

/-- State of one server node: the identifiers of its currently connected
local clients, newest first (socket.io has added the socket before the
`connection` handler runs). -/
structure ServerState where
  connected : List String
deriving DecidableEq, Repr

/-- Result of running one handler: successor state, the deliveries made by
`io.emit`, and the `console.log` lines, in order. -/
structure StepOut where
  state : ServerState
  deliveries : List Delivery
  logs : List String
deriving DecidableEq, Repr

/-- `io.emit(event, payload)`: deliver the event to every currently
connected client, once each, in registry order. -/
def ioEmit (conns : List String) (ev : String) (p : Payload) : List Delivery :=
  conns.map (fun t => { target := t, event := ev, payload := p })

/-! ## The e2esimple server (`src/e2esimple/server.js`)

```
io.on('connection', client => {
  console.log('New incoming Connection from', client.id);
  client.on('testMsg', function(message) {
    console.log('Message from the client:',client.id,'->',message);
  })
  io.emit("broadcast", 'A broadcast message');
});
```
-/

/-- The `connection` handler of the e2esimple server: log the new client,
install the `testMsg` listener, then `io.emit("broadcast", ...)` to every
connected client — the new one included, since socket.io fires
`connection` after adding the socket. -/
def e2eConnect (c : String) (s : ServerState) : StepOut :=
  let conns := c :: s.connected
  { state := { connected := conns }
    deliveries := ioEmit conns "broadcast" (Payload.str "A broadcast message")
    logs := ["New incoming Connection from " ++ c] }

/-- The `testMsg` handler of the e2esimple server: it only logs the
message; it emits nothing and changes nothing. -/
def e2eTestMsg (c m : String) (s : ServerState) : StepOut :=
  { state := s
    deliveries := []
    logs := ["Message from the client: " ++ c ++ " -> " ++ m] }

/-! ## The tutorial server (README, Step 1)

```
const randomOffset = Math.floor(Math.random() * 10);
const intervalOffset = (30+randomOffset) * Math.pow(10,3);
...
io.adapter(redisAdapter({ host: redisHost, port: 6379 }));
io.on('connection', client => {
  console.log('New incoming Connection from', client.id);
  client.on('test000', function(message) {
    console.log('Message from the client:',client.id,'->',message);
  })
});
setInterval(() => {
  let log0 = `I am the host: ${privateIp}. I am healty.`;
  console.log(log0);
  io.emit("okok", log0);
}, intervalOffset);
```
-/

/-- `Math.floor(Math.random() * 10)`, as a function of the draw
`x = Math.random() ∈ [0, 1)`. -/
def randomOffset (x : ℚ) : Nat := (Int.floor (x * 10)).toNat

/-- `intervalOffset = (30 + randomOffset) * Math.pow(10, 3)`, fixed once
at module load, in milliseconds. -/
def intervalOffset (r : Nat) : Nat := (30 + r) * 1000

/-- Firing time (ms since start) of the `n`-th `setInterval` tick: the
interval is the module constant `intervalOffset`, never re-drawn. -/
def tickTime (r n : Nat) : Nat := (n + 1) * intervalOffset r

/-- The string the tutorial server logs and broadcasts on every tick. -/
def okokLog (ip : String) : String :=
  "I am the host: " ++ ip ++ ". I am healty."

/-- The event name and payload the tick hands to `io.emit`. -/
def tutTickBroadcast (ip : String) : String × Payload :=
  ("okok", Payload.str (okokLog ip))

/-- The `connection` handler of the tutorial server: log and install the
`test000` listener; nothing is emitted. -/
def tutConnect (c : String) (s : ServerState) : StepOut :=
  { state := { connected := c :: s.connected }
    deliveries := []
    logs := ["New incoming Connection from " ++ c] }

/-- The `test000` handler of the tutorial server: it only logs the
message; it emits nothing and changes nothing. -/
def tutTest000 (c m : String) (s : ServerState) : StepOut :=
  { state := s
    deliveries := []
    logs := ["Message from the client: " ++ c ++ " -> " ++ m] }

/-- One `setInterval` tick of the tutorial server: log `okokLog` and
`io.emit("okok", log0)` to all connected clients. -/
def tutTick (ip : String) (s : ServerState) : StepOut :=
  { state := s
    deliveries := ioEmit s.connected (tutTickBroadcast ip).1 (tutTickBroadcast ip).2
    logs := [okokLog ip] }

/-! ## Configuration (`src/unnamed/part_000`, lines 76 and 83-84)

```
const socketPort = 5000;
const redisHost = process.env.REDIS_HOST || 'localhost';
io.adapter(redisAdapter({ host: redisHost, port: 6379 }));
```
-/

/-- The configuration values the tutorial server ends up running with. -/
structure TutConfig where
  redisHost : String
  redisPort : Nat
  socketPort : Nat
deriving DecidableEq, Repr

/-- Configuration as read from the environment: only `REDIS_HOST` is
consulted (defaulting to `localhost`); the Redis port and the listen port
are the literal constants `6379` and `5000`. -/
def mkConfig (env : String → Option String) : TutConfig :=
  { redisHost := (env "REDIS_HOST").getD "localhost"
    redisPort := 6379
    socketPort := 5000 }

/-! ## Wire messages

`client.emit('testMsg', 'a message')` and `io.emit(...)` put an event
name and a payload on the wire; nothing else is attached by this code. -/

/-- A message as it crosses the wire: event name and payload. -/
abbrev WireMsg := String × Payload

/-- The wire message produced when connection `send.1` emits the client
message `send.2` (`client.emit('testMsg', message)`, `client.js` line 9):
the code puts only the event name and the message text on the wire — the
sending connection does not appear in it. -/
def wireOfSend (send : String × String) : WireMsg :=
  ("testMsg", Payload.str send.2)

/-- The wire message of the serial position `i` in a trace of sends. -/
def wireAt (sends : Nat → String × String) (i : Nat) : WireMsg :=
  wireOfSend (sends i)

/-! ## Docker-compose labels (`src/stack/docker-compose.yml`) -/

/-- The `labels` list of the `socket-server` service, verbatim. -/
def composeSocketServerLabels : List (String × String) :=
  [ ("traefik.enable", "true")
  , ("traefik.http.routers.socket-router.rule", "PathPrefix(`/wsk`)")
  , ("traefik.http.services.service01.loadbalancer.server.port", "5000")
  , ("traefik.http.services.service01.loadbalancer.sticky.cookie", "true")
  , ("traefik.http.services.service01.loadbalancer.sticky.cookie.name", "io")
  , ("traefik.http.services.service01.loadbalancer.sticky.cookie.httponly", "true")
  , ("traefik.http.services.service01.loadbalancer.sticky.cookie.secure", "true")
  , ("traefik.http.services.service01.loadbalancer.sticky.cookie.samesite", "lax")
  , ("traefik.http.middlewares.socket-replaceprefix.replacepath.path", "/")
  , ("traefik.http.routers.socket-router.middlewares", "socket-replaceprefix@docker") ]

/-! ## Connection Registry (modelled from the spec, §4.1) -/

/-- Error taxonomy entry for registry operations on unknown connections. -/
inductive RegError where
  | NotFound
deriving DecidableEq, Repr

/-- A registry entry: the topic set of one registered connection. -/
structure RegEntry where
  topics : List String
deriving DecidableEq, Repr

/-- Modelled from the spec: the Connection Registry implementation is not
among the repository sources (connection bookkeeping happens inside the
socket.io dependency; the sources only install handlers on it), so it is
modelled from §4.1: a per-node index from connection identifier to its
subscription entry. -/
structure Registry where
  entries : List (String × RegEntry)
deriving DecidableEq, Repr

/-- Whether a connection identifier is currently registered. -/
def Registry.member (r : Registry) (cid : String) : Bool :=
  (r.entries.lookup cid).isSome

/-- Modelled from the spec: `register(connection) -> registry entry`. -/
def Registry.register (r : Registry) (cid : String) : Registry :=
  { entries := (cid, { topics := [] }) :: r.entries }

/-- Modelled from the spec: `unregister(connectionId)`; unknown
identifiers fail with `NotFound`. -/
def Registry.unregister (r : Registry) (cid : String) : Except RegError Registry :=
  if r.member cid then
    Except.ok { entries := r.entries.filter (fun p => p.1 != cid) }
  else
    Except.error RegError.NotFound

/-- Modelled from the spec: `subscribe(connectionId, topic)` adds the
topic to the connection's topic set; unknown identifiers fail with
`NotFound`. -/
def Registry.subscribe (r : Registry) (cid topic : String) : Except RegError Registry :=
  if r.member cid then
    Except.ok { entries :=
      r.entries.map (fun p => if p.1 = cid then (p.1, { topics := topic :: p.2.topics }) else p) }
  else
    Except.error RegError.NotFound

/-- Modelled from the spec: `unsubscribe(connectionId, topic)` removes
the topic from the connection's topic set; unknown identifiers fail with
`NotFound`. -/
def Registry.unsubscribe (r : Registry) (cid topic : String) : Except RegError Registry :=
  if r.member cid then
    Except.ok { entries :=
      r.entries.map (fun p =>
        if p.1 = cid then (p.1, { topics := p.2.topics.filter (fun t => t != topic) }) else p) }
  else
    Except.error RegError.NotFound

/-! ## Backplane Adapter (modelled from the spec, §4.2, §5, §7) -/

/-- Error taxonomy entry for backplane operations while the medium is
disconnected. -/
inductive BackplaneError where
  | BackplaneUnavailable
deriving DecidableEq, Repr

/-- Modelled from the spec: the Backplane Adapter implementation is not
among the repository sources (it lives in the socket.io-redis dependency;
`part_000` line 84 only installs it), so it is modelled from §4.2: the
adapter's observable connectivity to the shared medium. -/
structure Backplane where
  connected : Bool
deriving DecidableEq, Repr

/-- Modelled from the spec: `publish(envelope)` hands the envelope to the
medium when connected; on medium disconnect it fails with the recoverable
error `BackplaneUnavailable` — an error value returned to the caller,
never a process termination. -/
def Backplane.publish (b : Backplane) (w : WireMsg) : Except BackplaneError WireMsg :=
  if b.connected then Except.ok w
  else Except.error BackplaneError.BackplaneUnavailable

/-- Modelled from the spec: the delay (ms) before the `n`-th attempt to
re-establish the adapter's subscription — exponential backoff bounded by
a maximum backoff ceiling (§5). -/
def retryDelay (base cap n : Nat) : Nat :=
  min (base * 2 ^ n) cap

/-- Modelled from the spec: the Broadcast Coordinator's `Received-Local`
step (§4.3) — deliver to the local subscribers first, using the
Connection Registry directly, then hand the envelope to the Backplane
Adapter `publish`; the local-delivery path does not consult the
backplane. -/
def coordinateLocal (b : Backplane) (conns : List String) (ev : String) (p : Payload) :
    List Delivery × Except BackplaneError WireMsg :=
  (ioEmit conns ev p, b.publish (ev, p))

/-! # Claims -/

/-! ## C1 — message handling is only a local log, not a fan-out -/

/-- Claim C1 counterexample: a concrete state with two connections `A`
and `B`; `A` sends `hi` on the `testMsg` topic, `B` is connected (hence a
subscriber of the default broadcast namespace), yet the handler delivers
to nobody — refuting the claim that handling a client-originated message
performs delivery to all matching subscribers. The tutorial server's
`test000` handler behaves identically. -/
theorem c1_counterexample :
    (e2eTestMsg "A" "hi" { connected := ["A", "B"] }).deliveries = [] ∧
    (tutTest000 "A" "hi" { connected := ["A", "B"] }).deliveries = [] ∧
    "B" ∈ (ServerState.connected { connected := ["A", "B"] }) ∧
    "B" ≠ "A" := by
  decide

/-- Claim C1 (amended): handling a client-originated message (`testMsg`
on the e2esimple server, `test000` on the tutorial server) performs only
a local log and leaves the state unchanged; no delivery to any subscriber
occurs.  The only fan-outs in the code are the connect-time broadcast of
the e2esimple server and the tutorial server's periodic tick. -/
theorem c1_amended_handlers_only_log (s : ServerState) (c m : String) :
    (e2eTestMsg c m s).deliveries = [] ∧
    (e2eTestMsg c m s).state = s ∧
    (e2eTestMsg c m s).logs = ["Message from the client: " ++ c ++ " -> " ++ m] ∧
    (tutTest000 c m s).deliveries = [] ∧
    (tutTest000 c m s).state = s ∧
    (e2eConnect c s).deliveries.map Delivery.target = c :: s.connected := by
  refine ⟨rfl, rfl, rfl, rfl, rfl, ?_⟩
  simp [e2eConnect, ioEmit, Function.comp_def]

/-! ## C2 — self-delivery policy -/

/-- Claim C2 counterexample: there is no "exclude origin" configuration
in the code, and a message originating from connection `A` is delivered
to `A` zero times, not exactly once: the handler only logs it. -/
theorem c2_counterexample :
    ((e2eTestMsg "A" "hi" { connected := ["A", "B"] }).deliveries.map
      Delivery.target).count "A" = 0 ∧
    "A" ∈ (ServerState.connected { connected := ["A", "B"] }) ∧
    (0 : Nat) ≠ 1 := by
  decide

/-- Claim C2 (amended): client-originated messages are delivered to no
connection at all, the origin included.  The only broadcast the e2esimple
server performs is the connect-time `io.emit`, and that one reaches every
connected connection — the origin of the triggering event included —
exactly once; no exclude-origin configuration exists. -/
theorem c2_amended_broadcast_once (s : ServerState) (c t : String)
    (hnd : s.connected.Nodup) (hc : c ∉ s.connected)
    (ht : t ∈ (e2eConnect c s).state.connected) :
    ((e2eConnect c s).deliveries.map Delivery.target).count t = 1 ∧
    ((e2eConnect c s).deliveries.map Delivery.target).count c = 1 ∧
    ((e2eTestMsg c "hi" s).deliveries.map Delivery.target).count c = 0 := by
  have hmap : (e2eConnect c s).deliveries.map Delivery.target = c :: s.connected := by
    simp [e2eConnect, ioEmit, Function.comp_def]
  have hnodup : (c :: s.connected).Nodup := List.nodup_cons.mpr ⟨hc, hnd⟩
  have ht2 : t ∈ c :: s.connected := ht
  refine ⟨?_, ?_, rfl⟩
  · rw [hmap]
    exact List.count_eq_one_of_mem hnodup ht2
  · rw [hmap]
    exact List.count_eq_one_of_mem hnodup (List.mem_cons_self c s.connected)

/-- Claim C2 witness: the amended theorem applied at the concrete state
with one prior connection `B` and the new connection `A`. -/
theorem c2_witness :
    (["B"] : List String).Nodup ∧ "A" ∉ (["B"] : List String) ∧
    "A" ∈ (e2eConnect "A" { connected := ["B"] }).state.connected ∧
    (((e2eConnect "A" { connected := ["B"] }).deliveries.map
        Delivery.target).count "A" = 1 ∧
      ((e2eConnect "A" { connected := ["B"] }).deliveries.map
        Delivery.target).count "A" = 1 ∧
      ((e2eTestMsg "A" "hi" { connected := ["B"] }).deliveries.map
        Delivery.target).count "A" = 0) :=
  ⟨by decide, by decide, by decide,
    c2_amended_broadcast_once { connected := ["B"] } "A" "A"
      (by decide) (by decide) (by decide)⟩

/-! ## C3 — backplane failure semantics -/

/-- Claim C3: while the backplane is disconnected, `publish` fails with
the recoverable error value `BackplaneUnavailable`; the resubscription
schedule is exponential backoff bounded by the ceiling `cap` (each delay
is at most `cap`, and below the ceiling each attempt doubles the
previous delay); and the local-delivery path is untouched — the
coordinator's local deliveries on the disconnected backplane are exactly
`ioEmit` to the same-node connections, identical to the deliveries on a
connected backplane, with the failure surfacing only as the error value
of the publish component (every step is a total function: nothing
terminates the process).  Modelled from the spec (§4.2, §5, §7): the
adapter implementation lives in the socket.io-redis dependency, outside
the repository sources. -/
theorem c3_backplane_unavailable_local_continues (b : Backplane) (w : WireMsg)
    (conns : List String) (ev : String) (p : Payload) (base cap n : Nat)
    (hdis : b.connected = false) :
    b.publish w = Except.error BackplaneError.BackplaneUnavailable ∧
    retryDelay base cap n ≤ cap ∧
    (base * 2 ^ (n + 1) ≤ cap →
      retryDelay base cap (n + 1) = 2 * retryDelay base cap n) ∧
    (coordinateLocal b conns ev p).1 = ioEmit conns ev p ∧
    (coordinateLocal b conns ev p).1
      = (coordinateLocal { connected := true } conns ev p).1 ∧
    (coordinateLocal b conns ev p).2
      = Except.error BackplaneError.BackplaneUnavailable := by
  have hpub : ∀ v : WireMsg,
      b.publish v = Except.error BackplaneError.BackplaneUnavailable := by
    intro v
    simp [Backplane.publish, hdis]
  refine ⟨hpub w, Nat.min_le_right _ _, ?_, rfl, rfl, hpub (ev, p)⟩
  intro hcap
  have hmono : base * 2 ^ n ≤ base * 2 ^ (n + 1) :=
    Nat.mul_le_mul_left base (Nat.pow_le_pow_right (by norm_num) (Nat.le_succ n))
  rw [retryDelay, retryDelay, Nat.min_eq_left hcap,
    Nat.min_eq_left (le_trans hmono hcap)]
  ring

/-- Claim C3 witness: the theorem applied to a concretely disconnected
backplane, the e2esimple wire message, two local connections, backoff
base `100` ms, ceiling `30000` ms, attempt `3`. -/
theorem c3_witness :
    (Backplane.connected { connected := false } = false) ∧
    (Backplane.publish { connected := false } ("testMsg", Payload.str "a message")
        = Except.error BackplaneError.BackplaneUnavailable ∧
      retryDelay 100 30000 3 ≤ 30000 ∧
      (100 * 2 ^ (3 + 1) ≤ 30000 →
        retryDelay 100 30000 (3 + 1) = 2 * retryDelay 100 30000 3) ∧
      (coordinateLocal { connected := false } ["A", "B"] "broadcast"
          (Payload.str "A broadcast message")).1
        = ioEmit ["A", "B"] "broadcast" (Payload.str "A broadcast message") ∧
      (coordinateLocal { connected := false } ["A", "B"] "broadcast"
          (Payload.str "A broadcast message")).1
        = (coordinateLocal { connected := true } ["A", "B"] "broadcast"
            (Payload.str "A broadcast message")).1 ∧
      (coordinateLocal { connected := false } ["A", "B"] "broadcast"
          (Payload.str "A broadcast message")).2
        = Except.error BackplaneError.BackplaneUnavailable) :=
  ⟨by decide,
    c3_backplane_unavailable_local_continues { connected := false }
      ("testMsg", Payload.str "a message") ["A", "B"] "broadcast"
      (Payload.str "A broadcast message") 100 30000 3 (by decide)⟩

/-! ## C9 — connect-time broadcast of the e2esimple server -/

/-- Claim C9: on every new connection the e2esimple server emits exactly
one `broadcast` event with the fixed payload `A broadcast message` to
each currently connected client, the newly connected one included, and
this is triggered by connection establishment — receipt of a client
message (`testMsg`) triggers no emission at all. -/
theorem c9_broadcast_on_connect (s : ServerState) (c m : String) :
    (e2eConnect c s).deliveries =
      (c :: s.connected).map
        (fun t => { target := t, event := "broadcast"
                    payload := Payload.str "A broadcast message" }) ∧
    c ∈ (e2eConnect c s).deliveries.map Delivery.target ∧
    (e2eTestMsg c m s).deliveries = [] := by
  refine ⟨rfl, ?_, rfl⟩
  simp [e2eConnect, ioEmit]

/-! ## C4 — what the presence tick actually emits -/

/-- Claim C4 counterexample: at the concrete host `10.0.2.10`, the tick
hands `io.emit` the event name `okok` and the plain string payload
`I am the host: 10.0.2.10. I am healty.` — no presence record with the
fields `nodeId`, `health`, `connectionCount`, `timestamp` is emitted. -/
theorem c4_counterexample :
    (tutTickBroadcast "10.0.2.10").2 =
      Payload.str "I am the host: 10.0.2.10. I am healty." ∧
    ¬ ∃ r : PresenceRecord, (tutTickBroadcast "10.0.2.10").2 = Payload.record r := by
  constructor
  · rfl
  · rintro ⟨r, h⟩
    simp [tutTickBroadcast] at h

/-- Claim C4 (amended): on every tick the tutorial server broadcasts the
event `okok` whose payload is the plain human-readable string
`I am the host: <ip>. I am healty.`; it is delivered through the same
`io.emit` client-event channel as every other delivery, and it is not a
structured presence record. -/
theorem c4_amended_tick_shape (ip : String) (s : ServerState) :
    (tutTick ip s).deliveries =
      ioEmit s.connected (tutTickBroadcast ip).1 (tutTickBroadcast ip).2 ∧
    (tutTickBroadcast ip).1 = "okok" ∧
    (tutTickBroadcast ip).2 =
      Payload.str ("I am the host: " ++ ip ++ ". I am healty.") ∧
    (¬ ∃ r : PresenceRecord, (tutTickBroadcast ip).2 = Payload.record r) ∧
    (tutTick ip s).state = s := by
  refine ⟨rfl, rfl, rfl, ?_, rfl⟩
  rintro ⟨r, h⟩
  simp [tutTickBroadcast] at h

/-! ## C5 — no envelope fields on the wire -/

/-- Claim C5 counterexample: no origin-connection field is carried by the
wire messages of this code — any extractor recovering the origin from the
wire would have to return both `A` and `B` on the byte-identical messages
that connections `A` and `B` produce for the same text. -/
theorem c5_counterexample :
    wireOfSend ("A", "a message") = wireOfSend ("B", "a message") ∧
    ¬ ∃ orig : WireMsg → Option String,
        ∀ send : String × String, orig (wireOfSend send) = some send.1 := by
  constructor
  · rfl
  · rintro ⟨orig, h⟩
    have hA := h ("A", "a message")
    have hB := h ("B", "a message")
    have hAB : (some "A" : Option String) = some "B" := hA.symm.trans hB
    exact absurd hAB (by decide)

/-- Claim C5 (amended): a wire message of this code carries only an event
name and a string payload.  Messages from distinct connections are
wire-identical, and no per-origin monotonically increasing sequence
number can be carried either: in a trace where the same origin sends the
same text twice, the two wire messages are equal, so no extractor is
strictly increasing along the trace. -/
theorem c5_amended_bare_wire :
    (∀ c d m : String, wireOfSend (c, m) = wireOfSend (d, m)) ∧
    (∀ sends : Nat → String × String, ∀ i : Nat,
        wireAt sends i = ("testMsg", Payload.str (sends i).2)) ∧
    ¬ ∃ seq : WireMsg → Nat,
        ∀ sends : Nat → String × String, ∀ i j : Nat, i < j →
          seq (wireAt sends i) < seq (wireAt sends j) := by
  refine ⟨fun c d m => rfl, fun sends i => rfl, ?_⟩
  rintro ⟨seq, h⟩
  have := h (fun _ => ("A", "a message")) 0 1 (by decide)
  exact lt_irrefl _ this

/-! ## C6 — configuration surface -/

/-- Environment containing every key the specification names, and not
`REDIS_HOST`. -/
def specEnv : String → Option String := fun k =>
  if k = "BACKPLANE_HOST" then some "backplane.example"
  else if k = "BACKPLANE_PORT" then some "6380"
  else if k = "NODE_LISTEN_PORT" then some "6000"
  else if k = "PRESENCE_INTERVAL_MS" then some "1000"
  else if k = "OUTBOUND_QUEUE_LIMIT" then some "16"
  else if k = "RECONNECT_BACKOFF_MAX_MS" then some "5000"
  else none

/-- Claim C6 counterexample: with all six specification keys set (and
`REDIS_HOST` unset), the resulting configuration is identical to the one
read from an empty environment — Redis host `localhost`, Redis port
`6379`, listen port `5000`.  None of the specification's keys is
recognized, and the ports are fixed constants. -/
theorem c6_counterexample :
    mkConfig specEnv = mkConfig (fun _ => none) ∧
    (mkConfig specEnv).redisHost = "localhost" ∧
    (mkConfig specEnv).redisPort = 6379 ∧
    (mkConfig specEnv).socketPort = 5000 := by
  refine ⟨?_, rfl, rfl, rfl⟩
  rfl

/-- Claim C6 (amended): the only environment key the code reads is
`REDIS_HOST` (defaulting to `localhost`): two environments agreeing on
`REDIS_HOST` yield the same configuration, the Redis port is always the
constant `6379`, the listen port always the constant `5000`, and setting
`REDIS_HOST` does take effect. -/
theorem c6_amended_env_surface (env envB : String → Option String)
    (h : env "REDIS_HOST" = envB "REDIS_HOST") :
    mkConfig env = mkConfig envB ∧
    (mkConfig env).redisPort = 6379 ∧
    (mkConfig env).socketPort = 5000 ∧
    (mkConfig (fun k => if k = "REDIS_HOST" then some "redis" else none)).redisHost
      = "redis" := by
  refine ⟨?_, rfl, rfl, rfl⟩
  simp [mkConfig, h]

/-- Claim C6 witness: the amended theorem applied to the empty
environment and the all-spec-keys environment, which agree on
`REDIS_HOST` (both leave it unset). -/
theorem c6_witness :
    specEnv "REDIS_HOST" = (fun _ => none : String → Option String) "REDIS_HOST" ∧
    (mkConfig specEnv = mkConfig (fun _ => none) ∧
      (mkConfig specEnv).redisPort = 6379 ∧
      (mkConfig specEnv).socketPort = 5000 ∧
      (mkConfig (fun k => if k = "REDIS_HOST" then some "redis" else none)).redisHost
        = "redis") :=
  ⟨by decide, c6_amended_env_surface specEnv (fun _ => none) (by decide)⟩

/-! ## C7 — sticky-cookie configuration -/

/-- Claim C7 counterexample: the complete label list of the
`socket-server` service contains exactly ten keys; the sticky-cookie
settings among them are the switch, the name, and the `httponly`,
`secure` and `samesite` flags — no time-to-live is configured under any
key (`maxage`, `ttl` and `expires` lookups are all `none`). -/
theorem c7_counterexample :
    composeSocketServerLabels.map Prod.fst =
      [ "traefik.enable"
      , "traefik.http.routers.socket-router.rule"
      , "traefik.http.services.service01.loadbalancer.server.port"
      , "traefik.http.services.service01.loadbalancer.sticky.cookie"
      , "traefik.http.services.service01.loadbalancer.sticky.cookie.name"
      , "traefik.http.services.service01.loadbalancer.sticky.cookie.httponly"
      , "traefik.http.services.service01.loadbalancer.sticky.cookie.secure"
      , "traefik.http.services.service01.loadbalancer.sticky.cookie.samesite"
      , "traefik.http.middlewares.socket-replaceprefix.replacepath.path"
      , "traefik.http.routers.socket-router.middlewares" ] ∧
    composeSocketServerLabels.lookup
      "traefik.http.services.service01.loadbalancer.sticky.cookie.maxage" = none ∧
    composeSocketServerLabels.lookup
      "traefik.http.services.service01.loadbalancer.sticky.cookie.ttl" = none ∧
    composeSocketServerLabels.lookup
      "traefik.http.services.service01.loadbalancer.sticky.cookie.expires" = none := by
  decide

/-- Claim C7 (amended): the affinity cookie is owned entirely by the
external Traefik router and configured only through the compose labels:
sticky cookies are enabled with name `io` and the HTTP-only, secure and
same-site (`lax`) flags, and no time-to-live — a session cookie.  The
node sources contain no operation that reads, writes or reassigns the
token (their only outputs are socket event deliveries and log lines). -/
theorem c7_amended_cookie_config :
    composeSocketServerLabels.lookup
      "traefik.http.services.service01.loadbalancer.sticky.cookie" = some "true" ∧
    composeSocketServerLabels.lookup
      "traefik.http.services.service01.loadbalancer.sticky.cookie.name" = some "io" ∧
    composeSocketServerLabels.lookup
      "traefik.http.services.service01.loadbalancer.sticky.cookie.httponly" = some "true" ∧
    composeSocketServerLabels.lookup
      "traefik.http.services.service01.loadbalancer.sticky.cookie.secure" = some "true" ∧
    composeSocketServerLabels.lookup
      "traefik.http.services.service01.loadbalancer.sticky.cookie.samesite" = some "lax" := by
  decide

/-! ## C8 — registry operations on unknown connections -/

/-- Claim C8: every Connection Registry operation addressed by a
connection identifier that is not currently registered fails with the
recoverable error `NotFound`; the registry value is returned unchanged to
the caller (the error branch constructs no new registry), so no other
connection is affected and nothing is fatal.  Modelled from the spec
(§4.1, §7): the registry implementation lives in the socket.io
dependency, outside the repository sources. -/
theorem c8_unknown_connection_notfound (r : Registry) (cid topic : String)
    (h : r.member cid = false) :
    r.unregister cid = Except.error RegError.NotFound ∧
    r.subscribe cid topic = Except.error RegError.NotFound ∧
    r.unsubscribe cid topic = Except.error RegError.NotFound := by
  refine ⟨?_, ?_, ?_⟩ <;>
    simp [Registry.unregister, Registry.subscribe, Registry.unsubscribe, h]

/-- Claim C8 witness: the theorem applied to a registry holding only the
connection `K`, with the unknown identifier `X`. -/
theorem c8_witness :
    (Registry.member { entries := [("K", { topics := ["t"] })] } "X" = false) ∧
    (Registry.unregister { entries := [("K", { topics := ["t"] })] } "X"
        = Except.error RegError.NotFound ∧
      Registry.subscribe { entries := [("K", { topics := ["t"] })] } "X" "topic"
        = Except.error RegError.NotFound ∧
      Registry.unsubscribe { entries := [("K", { topics := ["t"] })] } "X" "topic"
        = Except.error RegError.NotFound) :=
  ⟨by decide,
    c8_unknown_connection_notfound { entries := [("K", { topics := ["t"] })] }
      "X" "topic" (by decide)⟩

/-! ## C10 — the presence interval and its jitter -/

/-- Claim C10: with `x = Math.random() ∈ [0, 1)` drawn once at process
start, `randomOffset x` is an integer in `0..9`, the interval is exactly
`(30 + randomOffset x) * 1000` milliseconds — always within
`[30000, 39000]` — every tick of the process fires after the same
interval (the jitter is per-process, not per-tick), and the jitter
window (at most `9000` ms) is less than a third of the interval. -/
theorem c10_interval_fixed_per_process (x : ℚ) (h0 : 0 ≤ x) (h1 : x < 1) :
    randomOffset x ≤ 9 ∧
    intervalOffset (randomOffset x) = (30 + randomOffset x) * 1000 ∧
    30000 ≤ intervalOffset (randomOffset x) ∧
    intervalOffset (randomOffset x) ≤ 39000 ∧
    (∀ n : Nat, tickTime (randomOffset x) (n + 1) - tickTime (randomOffset x) n
        = intervalOffset (randomOffset x)) ∧
    9000 * 3 < intervalOffset (randomOffset x) := by
  have hx10 : x * 10 < 10 := by linarith
  have hfloor : Int.floor (x * 10) < 10 := by
    exact_mod_cast Int.floor_lt.mpr (by exact_mod_cast hx10)
  have hr : randomOffset x ≤ 9 := by
    unfold randomOffset
    omega
  refine ⟨hr, rfl, ?_, ?_, ?_, ?_⟩
  · unfold intervalOffset
    omega
  · unfold intervalOffset
    omega
  · intro n
    show (n + 1 + 1) * intervalOffset (randomOffset x)
        - (n + 1) * intervalOffset (randomOffset x) = _
    rw [Nat.succ_mul, Nat.add_sub_cancel_left]
  · unfold intervalOffset
    omega

/-- Claim C10 witness: the theorem applied at the concrete draw
`x = 1/2`, which gives offset `5` and interval `35000` ms. -/
theorem c10_witness :
    (0 : ℚ) ≤ 1 / 2 ∧ (1 / 2 : ℚ) < 1 ∧
    (randomOffset (1 / 2) ≤ 9 ∧
      intervalOffset (randomOffset (1 / 2)) = (30 + randomOffset (1 / 2)) * 1000 ∧
      30000 ≤ intervalOffset (randomOffset (1 / 2)) ∧
      intervalOffset (randomOffset (1 / 2)) ≤ 39000 ∧
      (∀ n : Nat, tickTime (randomOffset (1 / 2)) (n + 1)
          - tickTime (randomOffset (1 / 2)) n
          = intervalOffset (randomOffset (1 / 2))) ∧
      9000 * 3 < intervalOffset (randomOffset (1 / 2))) :=
  ⟨by norm_num, by norm_num,
    c10_interval_fixed_per_process (1 / 2) (by norm_num) (by norm_num)⟩

end WebsocketsScaling
